import Mathlib

/-!
Shallow embedding of the transaction-processing core of `ledger-rs`
(`src/transaction.rs`, `src/account.rs`, and the `Ledger` aggregate of
`src/ledger.rs`), together with theorems settling the specification
claims about it.

Modelling conventions:
- `u16`/`u32` identifiers become `Nat` (no arithmetic is performed on them).
- `f64` amounts become `Rat`; the claims under verification are about
  control flow and exact field updates, not binary-float rounding, and
  every arithmetic step of the source is mirrored verbatim.
- `HashMap<K, V>` becomes the function map `Nat → Option V`; `insert` is
  pointwise update, `get`/`get_mut` is application.  Only `get`/`insert`
  (and the `entry(..).or_insert_with(..)` pattern) are used by the source.
- In-place mutation through `&mut` becomes explicit state passing: each
  operation returns the updated ledger, and the `Result<(), E>` of the
  source becomes an `Option TransactionError` component (`none` = `Ok(())`).
-/

namespace LedgerRs

/-- Transaction kinds, from `TransactionType` in `src/transaction.rs`. -/
inductive TransactionType where
  | Deposit
  | Withdrawal
  | Dispute
  | Resolve
  | Chargeback
deriving DecidableEq, Repr

/-- Error taxonomy, from `TransactionError` in `src/transaction.rs`. -/
inductive TransactionError where
  | Malformed
  | DuplicateTransactionID
  | InsufficientFunds
  | TransactionNotFound
  | NotDisputed
  | AlreadyDisputed
  | Indisputable
  | AccountLocked
  | Unauthorized
deriving DecidableEq, Repr

/-- Transaction record, from `struct Transaction` in `src/transaction.rs`. -/
structure Transaction where
  tx_type : TransactionType
  client_id : Nat
  tx_id : Nat
  amount : Option Rat
  disputed : Bool
deriving DecidableEq, Repr

/-- Account state, from `struct Account` in `src/account.rs`. -/
structure Account where
  client_id : Nat
  available_funds : Rat
  held_funds : Rat
  total_funds : Rat
  is_locked : Bool
deriving DecidableEq, Repr

/-- Model of `Account::new` from `src/account.rs`: all balances zero, unlocked. -/
def Account.new (id : Nat) : Account :=
  { client_id := id
    held_funds := 0
    available_funds := 0
    total_funds := 0
    is_locked := false }

/-- Function-map model of `HashMap::insert` (pointwise update). -/
def mapInsert {α : Type} (m : Nat → Option α) (k : Nat) (v : α) : Nat → Option α :=
  fun j => if j = k then some v else m j

/-- The `Ledger` aggregate from `src/ledger.rs`: the map of stored
transactions keyed by `tx_id` and the map of accounts keyed by `client_id`. -/
structure Ledger where
  transactions : Nat → Option Transaction
  accounts : Nat → Option Account

/-- The ledger `main.rs` starts from: `Ledger::new` applied to two empty maps. -/
def Ledger.empty : Ledger :=
  { transactions := fun _ => none, accounts := fun _ => none }

namespace Transaction

/-- Model of `Transaction::is_disputed` from `src/transaction.rs`. -/
def is_disputed (self : Transaction) : Except TransactionError Unit :=
  if !self.disputed then .error .NotDisputed else .ok ()

/-- Model of `Transaction::is_not_disputed` from `src/transaction.rs`. -/
def is_not_disputed (self : Transaction) : Except TransactionError Unit :=
  if self.disputed then .error .AlreadyDisputed else .ok ()

/-- Model of `Transaction::get_amount` from `src/transaction.rs`:
`self.amount.ok_or(TransactionError::Malformed)`. -/
def get_amount (self : Transaction) : Except TransactionError Rat :=
  match self.amount with
  | some a => .ok a
  | none => .error .Malformed

/-- Model of `Transaction::get_account` from `src/transaction.rs`.
`accounts.entry(client_id).or_insert_with(Account::new)` lazily creates the
account, then the lock check runs.  Returns the possibly-extended map and
either the (unlocked) account or `AccountLocked`.  A freshly created account
has `is_locked = false`, so in the creation branch the lock check passes. -/
def get_account (self : Transaction) (accounts : Nat → Option Account) :
    (Nat → Option Account) × Except TransactionError Account :=
  match accounts self.client_id with
  | some account =>
      if account.is_locked then (accounts, .error .AccountLocked)
      else (accounts, .ok account)
  | none =>
      (mapInsert accounts self.client_id (Account.new self.client_id),
       .ok (Account.new self.client_id))

/-- Model of `Transaction::get_referenced_tx` from `src/transaction.rs`: look the
referenced transaction up by `tx_id`, check ownership, then check that it is
a Deposit or Withdrawal. -/
def get_referenced_tx (self : Transaction) (transactions : Nat → Option Transaction) :
    Except TransactionError Transaction :=
  match transactions self.tx_id with
  | none => .error .TransactionNotFound
  | some referenced_tx =>
      if self.client_id ≠ referenced_tx.client_id then .error .Unauthorized
      else
        match referenced_tx.tx_type with
        | .Deposit | .Withdrawal => .ok referenced_tx
        | _ => .error .Indisputable

/-- The second `match self.tx_type` block of `Transaction::append_to`
(`src/transaction.rs` lines 246-302): the type-specific checks and balance
mutations, run after the duplicate-ID guard (and, for Deposit/Withdrawal,
after the record has been inserted). -/
def process (self : Transaction) (ledger : Ledger) :
    Option TransactionError × Ledger :=
  match self.tx_type with
  | .Deposit =>
      match self.get_amount with
      | .error e => (some e, ledger)
      | .ok amount =>
          match self.get_account ledger.accounts with
          | (accounts1, .error e) => (some e, { ledger with accounts := accounts1 })
          | (accounts1, .ok account) =>
              let account := { account with
                available_funds := account.available_funds + amount }
              let account := { account with
                total_funds := account.available_funds + account.held_funds }
              (none, { ledger with accounts := mapInsert accounts1 self.client_id account })
  | .Withdrawal =>
      match self.get_amount with
      | .error e => (some e, ledger)
      | .ok amount =>
          match self.get_account ledger.accounts with
          | (accounts1, .error e) => (some e, { ledger with accounts := accounts1 })
          | (accounts1, .ok account) =>
              if amount > account.available_funds then
                (some .InsufficientFunds, { ledger with accounts := accounts1 })
              else
                let account := { account with
                  available_funds := account.available_funds - amount }
                let account := { account with
                  total_funds := account.available_funds + account.held_funds }
                (none, { ledger with accounts := mapInsert accounts1 self.client_id account })
  | .Dispute =>
      match self.get_account ledger.accounts with
      | (accounts1, .error e) => (some e, { ledger with accounts := accounts1 })
      | (accounts1, .ok account) =>
          match self.get_referenced_tx ledger.transactions with
          | .error e => (some e, { ledger with accounts := accounts1 })
          | .ok referenced_tx =>
              match referenced_tx.get_amount with
              | .error e => (some e, { ledger with accounts := accounts1 })
              | .ok amount =>
                  match referenced_tx.is_not_disputed with
                  | .error e => (some e, { ledger with accounts := accounts1 })
                  | .ok _ =>
                      let referenced_tx := { referenced_tx with disputed := true }
                      let account :=
                        if referenced_tx.tx_type = .Deposit then
                          { account with
                            available_funds := account.available_funds - amount }
                        else account
                      let account := { account with
                        held_funds := account.held_funds + amount }
                      let account := { account with
                        total_funds := account.available_funds + account.held_funds }
                      (none,
                       { transactions := mapInsert ledger.transactions self.tx_id referenced_tx
                         accounts := mapInsert accounts1 self.client_id account })
  | .Resolve =>
      match self.get_account ledger.accounts with
      | (accounts1, .error e) => (some e, { ledger with accounts := accounts1 })
      | (accounts1, .ok account) =>
          match self.get_referenced_tx ledger.transactions with
          | .error e => (some e, { ledger with accounts := accounts1 })
          | .ok referenced_tx =>
              match referenced_tx.get_amount with
              | .error e => (some e, { ledger with accounts := accounts1 })
              | .ok amount =>
                  match referenced_tx.is_disputed with
                  | .error e => (some e, { ledger with accounts := accounts1 })
                  | .ok _ =>
                      let referenced_tx := { referenced_tx with disputed := false }
                      let account := { account with
                        available_funds := account.available_funds + amount }
                      let account := { account with
                        held_funds := account.held_funds - amount }
                      let account := { account with
                        total_funds := account.available_funds + account.held_funds }
                      (none,
                       { transactions := mapInsert ledger.transactions self.tx_id referenced_tx
                         accounts := mapInsert accounts1 self.client_id account })
  | .Chargeback =>
      match self.get_account ledger.accounts with
      | (accounts1, .error e) => (some e, { ledger with accounts := accounts1 })
      | (accounts1, .ok account) =>
          match self.get_referenced_tx ledger.transactions with
          | .error e => (some e, { ledger with accounts := accounts1 })
          | .ok referenced_tx =>
              match referenced_tx.get_amount with
              | .error e => (some e, { ledger with accounts := accounts1 })
              | .ok amount =>
                  match referenced_tx.is_disputed with
                  | .error e => (some e, { ledger with accounts := accounts1 })
                  | .ok _ =>
                      let referenced_tx := { referenced_tx with disputed := false }
                      let account := { account with is_locked := true }
                      let account := { account with
                        held_funds := account.held_funds - amount }
                      let account := { account with
                        total_funds := account.available_funds + account.held_funds }
                      (none,
                       { transactions := mapInsert ledger.transactions self.tx_id referenced_tx
                         accounts := mapInsert accounts1 self.client_id account })

/-- Model of `Transaction::append_to` from `src/transaction.rs`: first the
duplicate-ID guard for Deposit/Withdrawal (which inserts the record, and on a
duplicate puts the old record back and bails), then the type-specific block
`process`.  `none` in the first component corresponds to `Ok(())`. -/
def append_to (self : Transaction) (ledger : Ledger) :
    Option TransactionError × Ledger :=
  match self.tx_type with
  | .Deposit | .Withdrawal =>
      match ledger.transactions self.tx_id with
      | some old =>
          let transactions1 := mapInsert ledger.transactions self.tx_id self
          let transactions2 := mapInsert transactions1 self.tx_id old
          (some .DuplicateTransactionID, { ledger with transactions := transactions2 })
      | none =>
          self.process
            { ledger with transactions := mapInsert ledger.transactions self.tx_id self }
  | _ => self.process ledger

end Transaction

/-- Ledger states reachable from the empty ledger by any sequence of
`append_to` calls, successful or failed (the resulting state of a failed
call is kept, matching the recommended skip-and-continue driver loop). -/
inductive Reachable : Ledger → Prop where
  | empty : Reachable Ledger.empty
  | step (tx : Transaction) {l : Ledger} :
      Reachable l → Reachable (tx.append_to l).2

/-- Helper for building concrete transaction records in examples. -/
def mkTx (ty : TransactionType) (c t : Nat) (a : Option Rat) (d : Bool) :
    Transaction :=
  { tx_type := ty, client_id := c, tx_id := t, amount := a, disputed := d }

/-- Deposit of 100 for client 1 under tx 1. -/
def txD11 : Transaction := mkTx .Deposit 1 1 (some 100) false

/-- Deposit for client 1 under tx 1 with its amount missing. -/
def txDnone : Transaction := mkTx .Deposit 1 1 none false

/-- Withdrawal of 90 for client 1 under tx 2. -/
def txW12 : Transaction := mkTx .Withdrawal 1 2 (some 90) false

/-- Dispute by client 1 of tx 1. -/
def txDsp11 : Transaction := mkTx .Dispute 1 1 none false

/-- Chargeback by client 1 of tx 1. -/
def txCb11 : Transaction := mkTx .Chargeback 1 1 none false

/-- State after `deposit(1,1,100)` on the empty ledger. -/
def exL1 : Ledger := (txD11.append_to Ledger.empty).2

/-- State after `deposit(1,1,100)`, `dispute(1,1)`. -/
def exL2 : Ledger := (txDsp11.append_to exL1).2

/-- State after `deposit(1,1,100)`, `dispute(1,1)`, `chargeback(1,1)`:
account 1 is locked and tx 1 is stored. -/
def exL3 : Ledger := (txCb11.append_to exL2).2

/-- State after `deposit(1,1,100)`, `withdrawal(1,2,90)`. -/
def exW2 : Ledger := (txW12.append_to exL1).2

/-- Deposit of 50 for client 2 under tx 2. -/
def txD22 : Transaction := mkTx .Deposit 2 2 (some 50) false

/-- State after `deposit(1,1,100)`, `deposit(2,2,50)`. -/
def exM2 : Ledger := (txD22.append_to exL1).2

/-- State after additionally `dispute(2,2)`. -/
def exM3 : Ledger := ((mkTx .Dispute 2 2 none false).append_to exM2).2

/-- State after additionally `chargeback(2,2)`: account 2 is locked while
tx 1 (owned by client 1) is stored. -/
def exM4 : Ledger := ((mkTx .Chargeback 2 2 none false).append_to exM3).2

/-- Deposit of 50 for client 1 under tx 6. -/
def txD16 : Transaction := mkTx .Deposit 1 6 (some 50) false

/-- State after `deposit(1,1,100)`, `deposit(1,6,50)`. -/
def exK2 : Ledger := (txD16.append_to exL1).2

/-- State after additionally `dispute(1,1)`: tx 1 is disputed. -/
def exK3 : Ledger := (txDsp11.append_to exK2).2

/-- State after additionally `dispute(1,6)`. -/
def exK4 : Ledger := ((mkTx .Dispute 1 6 none false).append_to exK3).2

/-- State after additionally `chargeback(1,6)`: account 1 is locked while
tx 1 is still marked disputed. -/
def exK5 : Ledger := ((mkTx .Chargeback 1 6 none false).append_to exK4).2

section Lemmas

open Transaction

theorem mapInsert_self {α : Type} (m : Nat → Option α) (k : Nat) (v : α) :
    mapInsert m k v k = some v := by
  simp [mapInsert]

theorem mapInsert_other {α : Type} (m : Nat → Option α) (k j : Nat) (v : α)
    (h : j ≠ k) : mapInsert m k v j = m j := by
  simp [mapInsert, h]

/-- Inversion for `get_account` in the success case: the returned account is
unlocked, it is stored at `client_id` in the returned map, and it is either
the pre-existing account or a freshly created one. -/
theorem get_account_ok {tx : Transaction} {accounts : Nat → Option Account}
    {accounts1 : Nat → Option Account} {account : Account}
    (h : tx.get_account accounts = (accounts1, .ok account)) :
    accounts1 tx.client_id = some account ∧ account.is_locked = false ∧
      ((accounts tx.client_id = some account ∧ accounts1 = accounts) ∨
        (accounts tx.client_id = none ∧ account = Account.new tx.client_id ∧
          accounts1 = mapInsert accounts tx.client_id (Account.new tx.client_id))) := by
  unfold get_account at h
  split at h
  · split at h
    · exact absurd h (by simp)
    · rename_i a ha hlock
      rw [Prod.mk.injEq] at h
      obtain ⟨h1, h2⟩ := h
      rw [Except.ok.injEq] at h2
      subst h2
      subst h1
      exact ⟨ha, by simpa using hlock, .inl ⟨ha, rfl⟩⟩
  · rename_i ha
    rw [Prod.mk.injEq] at h
    obtain ⟨h1, h2⟩ := h
    rw [Except.ok.injEq] at h2
    subst h2
    subst h1
    exact ⟨by simp [mapInsert], rfl, .inr ⟨ha, rfl, rfl⟩⟩

/-- Inversion for `get_account` in the error case: the error is
`AccountLocked`, the map is returned untouched, and the stored account for
the client is locked. -/
theorem get_account_error {tx : Transaction} {accounts : Nat → Option Account}
    {accounts1 : Nat → Option Account} {e : TransactionError}
    (h : tx.get_account accounts = (accounts1, .error e)) :
    e = .AccountLocked ∧ accounts1 = accounts ∧
      ∃ a, accounts tx.client_id = some a ∧ a.is_locked = true := by
  unfold get_account at h
  split at h
  · split at h
    · rename_i a ha hlock
      rw [Prod.mk.injEq] at h
      obtain ⟨h1, h2⟩ := h
      rw [Except.error.injEq] at h2
      exact ⟨h2.symm, h1.symm, a, ha, hlock⟩
    · exact absurd h (by simp)
  · exact absurd h (by simp)

/-- The map returned by `get_account` agrees with the input map everywhere,
except that the entry for `client_id` may change from absent to a fresh
zero-balance unlocked account. -/
theorem get_account_frame (tx : Transaction) (accounts : Nat → Option Account)
    (c : Nat) :
    (tx.get_account accounts).1 c = accounts c ∨
      (c = tx.client_id ∧ accounts c = none ∧
        (tx.get_account accounts).1 c = some (Account.new c)) := by
  unfold get_account
  split
  · split <;> exact .inl rfl
  · rename_i ha
    by_cases hc : c = tx.client_id
    · subst hc
      exact .inr ⟨rfl, ha, by simp [mapInsert]⟩
    · exact .inl (by simp [mapInsert, hc])

/-- Inversion for `get_referenced_tx` in the success case. -/
theorem get_referenced_tx_ok {tx : Transaction}
    {transactions : Nat → Option Transaction} {rtx : Transaction}
    (h : tx.get_referenced_tx transactions = .ok rtx) :
    transactions tx.tx_id = some rtx ∧ rtx.client_id = tx.client_id ∧
      (rtx.tx_type = .Deposit ∨ rtx.tx_type = .Withdrawal) := by
  unfold get_referenced_tx at h
  split at h
  · exact absurd h (by simp)
  · rename_i r hr
    split at h
    · exact absurd h (by simp)
    · rename_i hcl
      rw [not_ne_iff] at hcl
      split at h <;>
        first
          | (rw [Except.ok.injEq] at h; subst h; exact ⟨hr, hcl.symm, by simp_all⟩)
          | exact absurd h (by simp)

theorem get_account_fst_frame {tx : Transaction} {accounts : Nat → Option Account}
    {accounts1 : Nat → Option Account} {r : Except TransactionError Account}
    (h : tx.get_account accounts = (accounts1, r)) (c : Nat) :
    accounts1 c = accounts c ∨
      (c = tx.client_id ∧ accounts c = none ∧ accounts1 c = some (Account.new c)) := by
  have hf := get_account_frame tx accounts c
  rw [h] at hf
  exact hf

/-- Every account in the ledger satisfies the derived-total equation. -/
def AccountsInv (l : Ledger) : Prop :=
  ∀ c a, l.accounts c = some a → a.total_funds = a.available_funds + a.held_funds

theorem accountsInv_empty : AccountsInv Ledger.empty := by
  intro c a h
  simp [Ledger.empty] at h

section GetAccountForward

variable {tx : Transaction} {accounts : Nat → Option Account} {a : Account}

theorem ga_some_unlocked (ha : accounts tx.client_id = some a)
    (hl : a.is_locked = false) : tx.get_account accounts = (accounts, .ok a) := by
  simp [get_account, ha, hl]

theorem ga_some_locked (ha : accounts tx.client_id = some a)
    (hl : a.is_locked = true) :
    tx.get_account accounts = (accounts, .error .AccountLocked) := by
  simp [get_account, ha, hl]

theorem ga_none (ha : accounts tx.client_id = none) :
    tx.get_account accounts =
      (mapInsert accounts tx.client_id (Account.new tx.client_id),
       .ok (Account.new tx.client_id)) := by
  simp [get_account, ha]

end GetAccountForward

section GetReferencedTxForward

variable {tx rtx : Transaction} {transactions : Nat → Option Transaction}

theorem grt_not_found (h : transactions tx.tx_id = none) :
    tx.get_referenced_tx transactions = .error .TransactionNotFound := by
  simp [get_referenced_tx, h]

theorem grt_unauthorized (h : transactions tx.tx_id = some rtx)
    (hcl : tx.client_id ≠ rtx.client_id) :
    tx.get_referenced_tx transactions = .error .Unauthorized := by
  simp [get_referenced_tx, h, hcl]

theorem grt_found (h : transactions tx.tx_id = some rtx)
    (hcl : tx.client_id = rtx.client_id)
    (hty : rtx.tx_type = .Deposit ∨ rtx.tx_type = .Withdrawal) :
    tx.get_referenced_tx transactions = .ok rtx := by
  rcases hty with hty | hty <;> simp [get_referenced_tx, h, hcl, hty]

end GetReferencedTxForward

section ProcessCharacterization

/-! Characterization of each branch of `process`: one equation per leaf of
the source's control flow, with the scrutinised values fixed by hypotheses. -/

variable {tx : Transaction} {l : Ledger} {acc1 : Nat → Option Account}
variable {account : Account} {e : TransactionError} {amount : Rat}
variable {rtx : Transaction}

theorem process_dw_malformed (ht : tx.tx_type = .Deposit ∨ tx.tx_type = .Withdrawal)
    (ha : tx.amount = none) : tx.process l = (some .Malformed, l) := by
  rcases ht with ht | ht <;> simp [Transaction.process, ht, get_amount, ha]

theorem process_deposit_acct_error (ht : tx.tx_type = .Deposit)
    (ha : tx.amount = some amount)
    (hga : tx.get_account l.accounts = (acc1, .error e)) :
    tx.process l = (some e, { l with accounts := acc1 }) := by
  simp [Transaction.process, ht, get_amount, ha, hga]

theorem process_deposit_ok (ht : tx.tx_type = .Deposit)
    (ha : tx.amount = some amount)
    (hga : tx.get_account l.accounts = (acc1, .ok account)) :
    tx.process l =
      (none,
       { l with
           accounts := mapInsert acc1 tx.client_id
             { account with
                 available_funds := account.available_funds + amount
                 total_funds := account.available_funds + amount +
                   account.held_funds } }) := by
  simp [Transaction.process, ht, get_amount, ha, hga]

theorem process_withdrawal_acct_error (ht : tx.tx_type = .Withdrawal)
    (ha : tx.amount = some amount)
    (hga : tx.get_account l.accounts = (acc1, .error e)) :
    tx.process l = (some e, { l with accounts := acc1 }) := by
  simp [Transaction.process, ht, get_amount, ha, hga]

theorem process_withdrawal_insufficient (ht : tx.tx_type = .Withdrawal)
    (ha : tx.amount = some amount)
    (hga : tx.get_account l.accounts = (acc1, .ok account))
    (hlt : amount > account.available_funds) :
    tx.process l = (some .InsufficientFunds, { l with accounts := acc1 }) := by
  simp [Transaction.process, ht, get_amount, ha, hga, hlt]

theorem process_withdrawal_ok (ht : tx.tx_type = .Withdrawal)
    (ha : tx.amount = some amount)
    (hga : tx.get_account l.accounts = (acc1, .ok account))
    (hle : ¬ amount > account.available_funds) :
    tx.process l =
      (none,
       { l with
           accounts := mapInsert acc1 tx.client_id
             { account with
                 available_funds := account.available_funds - amount
                 total_funds := account.available_funds - amount +
                   account.held_funds } }) := by
  simp [Transaction.process, ht, get_amount, ha, hga, hle]

theorem process_ref_acct_error
    (ht : tx.tx_type = .Dispute ∨ tx.tx_type = .Resolve ∨ tx.tx_type = .Chargeback)
    (hga : tx.get_account l.accounts = (acc1, .error e)) :
    tx.process l = (some e, { l with accounts := acc1 }) := by
  rcases ht with ht | ht | ht <;> simp [Transaction.process, ht, hga]

theorem process_ref_tx_error
    (ht : tx.tx_type = .Dispute ∨ tx.tx_type = .Resolve ∨ tx.tx_type = .Chargeback)
    (hga : tx.get_account l.accounts = (acc1, .ok account))
    (hgr : tx.get_referenced_tx l.transactions = .error e) :
    tx.process l = (some e, { l with accounts := acc1 }) := by
  rcases ht with ht | ht | ht <;> simp [Transaction.process, ht, hga, hgr]

theorem process_ref_malformed
    (ht : tx.tx_type = .Dispute ∨ tx.tx_type = .Resolve ∨ tx.tx_type = .Chargeback)
    (hga : tx.get_account l.accounts = (acc1, .ok account))
    (hgr : tx.get_referenced_tx l.transactions = .ok rtx)
    (hra : rtx.amount = none) :
    tx.process l = (some .Malformed, { l with accounts := acc1 }) := by
  rcases ht with ht | ht | ht <;> simp [Transaction.process, ht, hga, hgr, get_amount, hra]

theorem process_dispute_already_disputed (ht : tx.tx_type = .Dispute)
    (hga : tx.get_account l.accounts = (acc1, .ok account))
    (hgr : tx.get_referenced_tx l.transactions = .ok rtx)
    (hra : rtx.amount = some amount) (hd : rtx.disputed = true) :
    tx.process l = (some .AlreadyDisputed, { l with accounts := acc1 }) := by
  simp [Transaction.process, ht, hga, hgr, get_amount, hra, is_not_disputed, hd]

theorem process_dispute_ok (ht : tx.tx_type = .Dispute)
    (hga : tx.get_account l.accounts = (acc1, .ok account))
    (hgr : tx.get_referenced_tx l.transactions = .ok rtx)
    (hra : rtx.amount = some amount) (hd : rtx.disputed = false) :
    tx.process l =
      (none,
       { transactions := mapInsert l.transactions tx.tx_id { rtx with disputed := true }
         accounts := mapInsert acc1 tx.client_id
           (let account1 :=
              if rtx.tx_type = .Deposit then
                { account with available_funds := account.available_funds - amount }
              else account
            { account1 with
                held_funds := account1.held_funds + amount
                total_funds := account1.available_funds +
                  (account1.held_funds + amount) }) }) := by
  simp only [Transaction.process, ht, hga, hgr, get_amount, hra, is_not_disputed, hd]
  rfl

theorem process_rc_not_disputed
    (ht : tx.tx_type = .Resolve ∨ tx.tx_type = .Chargeback)
    (hga : tx.get_account l.accounts = (acc1, .ok account))
    (hgr : tx.get_referenced_tx l.transactions = .ok rtx)
    (hra : rtx.amount = some amount) (hd : rtx.disputed = false) :
    tx.process l = (some .NotDisputed, { l with accounts := acc1 }) := by
  rcases ht with ht | ht <;>
    simp [Transaction.process, ht, hga, hgr, get_amount, hra, is_disputed, hd]

theorem process_resolve_ok (ht : tx.tx_type = .Resolve)
    (hga : tx.get_account l.accounts = (acc1, .ok account))
    (hgr : tx.get_referenced_tx l.transactions = .ok rtx)
    (hra : rtx.amount = some amount) (hd : rtx.disputed = true) :
    tx.process l =
      (none,
       { transactions := mapInsert l.transactions tx.tx_id { rtx with disputed := false }
         accounts := mapInsert acc1 tx.client_id
           { account with
               available_funds := account.available_funds + amount
               held_funds := account.held_funds - amount
               total_funds := account.available_funds + amount +
                 (account.held_funds - amount) } }) := by
  simp [Transaction.process, ht, hga, hgr, get_amount, hra, is_disputed, hd]

theorem process_chargeback_ok (ht : tx.tx_type = .Chargeback)
    (hga : tx.get_account l.accounts = (acc1, .ok account))
    (hgr : tx.get_referenced_tx l.transactions = .ok rtx)
    (hra : rtx.amount = some amount) (hd : rtx.disputed = true) :
    tx.process l =
      (none,
       { transactions := mapInsert l.transactions tx.tx_id { rtx with disputed := false }
         accounts := mapInsert acc1 tx.client_id
           { account with
               is_locked := true
               held_funds := account.held_funds - amount
               total_funds := account.available_funds +
                 (account.held_funds - amount) } }) := by
  simp [Transaction.process, ht, hga, hgr, get_amount, hra, is_disputed, hd]

end ProcessCharacterization

section AppendToCharacterization

variable {tx : Transaction} {l : Ledger} {old : Transaction}

theorem append_to_dup (ht : tx.tx_type = .Deposit ∨ tx.tx_type = .Withdrawal)
    (hold : l.transactions tx.tx_id = some old) :
    tx.append_to l =
      (some .DuplicateTransactionID,
       { l with transactions :=
           mapInsert (mapInsert l.transactions tx.tx_id tx) tx.tx_id old }) := by
  rcases ht with ht | ht <;> simp [Transaction.append_to, ht, hold]

theorem append_to_fresh (ht : tx.tx_type = .Deposit ∨ tx.tx_type = .Withdrawal)
    (hnone : l.transactions tx.tx_id = none) :
    tx.append_to l =
      tx.process { l with transactions := mapInsert l.transactions tx.tx_id tx } := by
  rcases ht with ht | ht <;> simp [Transaction.append_to, ht, hnone]

theorem append_to_ref
    (ht : tx.tx_type = .Dispute ∨ tx.tx_type = .Resolve ∨ tx.tx_type = .Chargeback) :
    tx.append_to l = tx.process l := by
  rcases ht with ht | ht | ht <;> simp [Transaction.append_to, ht]

end AppendToCharacterization

section Frames

theorem tx_type_cases (ty : TransactionType) :
    ty = .Deposit ∨ ty = .Withdrawal ∨ ty = .Dispute ∨ ty = .Resolve ∨
      ty = .Chargeback := by
  cases ty <;> simp

variable {tx : Transaction} {l : Ledger} {e : TransactionError}

/-- A failing `process` call leaves the transactions map untouched, and
changes the accounts map at most by lazily creating the fresh zero-balance
unlocked account for `client_id`. -/
theorem process_error_frame (h : (tx.process l).1 = some e) :
    (tx.process l).2.transactions = l.transactions ∧
      ∀ c, (tx.process l).2.accounts c = l.accounts c ∨
        (c = tx.client_id ∧ l.accounts c = none ∧
          (tx.process l).2.accounts c = some (Account.new c)) := by
  have hrefs : (tx.tx_type = .Dispute ∨ tx.tx_type = .Resolve ∨
      tx.tx_type = .Chargeback) →
      (tx.process l).2.transactions = l.transactions ∧
      ∀ c, (tx.process l).2.accounts c = l.accounts c ∨
        (c = tx.client_id ∧ l.accounts c = none ∧
          (tx.process l).2.accounts c = some (Account.new c)) := by
    intro ht
    rcases hga : tx.get_account l.accounts with ⟨acc1, er | account⟩
    · rw [process_ref_acct_error ht hga]
      exact ⟨rfl, fun c => get_account_fst_frame hga c⟩
    · rcases hgr : tx.get_referenced_tx l.transactions with er | rtx
      · rw [process_ref_tx_error ht hga hgr]
        exact ⟨rfl, fun c => get_account_fst_frame hga c⟩
      · rcases hra : rtx.amount with _ | amount
        · rw [process_ref_malformed ht hga hgr hra]
          exact ⟨rfl, fun c => get_account_fst_frame hga c⟩
        · rcases ht with ht | ht | ht
          · cases hd : rtx.disputed
            · rw [process_dispute_ok ht hga hgr hra hd] at h
              exact absurd h (by simp)
            · rw [process_dispute_already_disputed ht hga hgr hra hd]
              exact ⟨rfl, fun c => get_account_fst_frame hga c⟩
          · cases hd : rtx.disputed
            · rw [process_rc_not_disputed (.inl ht) hga hgr hra hd]
              exact ⟨rfl, fun c => get_account_fst_frame hga c⟩
            · rw [process_resolve_ok ht hga hgr hra hd] at h
              exact absurd h (by simp)
          · cases hd : rtx.disputed
            · rw [process_rc_not_disputed (.inr ht) hga hgr hra hd]
              exact ⟨rfl, fun c => get_account_fst_frame hga c⟩
            · rw [process_chargeback_ok ht hga hgr hra hd] at h
              exact absurd h (by simp)
  rcases httype : tx.tx_type with _ | _ | _ | _ | _
  · rcases ham : tx.amount with _ | amount
    · rw [process_dw_malformed (.inl httype) ham]
      exact ⟨rfl, fun c => .inl rfl⟩
    · rcases hga : tx.get_account l.accounts with ⟨acc1, er | account⟩
      · rw [process_deposit_acct_error httype ham hga]
        exact ⟨rfl, fun c => get_account_fst_frame hga c⟩
      · rw [process_deposit_ok httype ham hga] at h
        exact absurd h (by simp)
  · rcases ham : tx.amount with _ | amount
    · rw [process_dw_malformed (.inr httype) ham]
      exact ⟨rfl, fun c => .inl rfl⟩
    · rcases hga : tx.get_account l.accounts with ⟨acc1, er | account⟩
      · rw [process_withdrawal_acct_error httype ham hga]
        exact ⟨rfl, fun c => get_account_fst_frame hga c⟩
      · by_cases hcmp : amount > account.available_funds
        · rw [process_withdrawal_insufficient httype ham hga hcmp]
          exact ⟨rfl, fun c => get_account_fst_frame hga c⟩
        · rw [process_withdrawal_ok httype ham hga hcmp] at h
          exact absurd h (by simp)
  · exact hrefs (.inl httype)
  · exact hrefs (.inr (.inl httype))
  · exact hrefs (.inr (.inr httype))

/-- A successful `process` call writes exactly one account back: the
(lazily created or pre-existing, unlocked) account of `client_id`, mutated
so that its `total_funds` is recomputed as `available_funds + held_funds`,
and locked exactly when the transaction is a Chargeback. -/
theorem process_success_shape (h : (tx.process l).1 = none) :
    ∃ acc1 account newacct,
      tx.get_account l.accounts = (acc1, .ok account) ∧
      (tx.process l).2.accounts = mapInsert acc1 tx.client_id newacct ∧
      newacct.total_funds = newacct.available_funds + newacct.held_funds ∧
      (tx.tx_type = .Chargeback → newacct.is_locked = true) ∧
      (tx.tx_type ≠ .Chargeback → newacct.is_locked = account.is_locked) := by
  have hrefs : (tx.tx_type = .Dispute ∨ tx.tx_type = .Resolve ∨
      tx.tx_type = .Chargeback) →
      ∃ acc1 account newacct,
        tx.get_account l.accounts = (acc1, .ok account) ∧
        (tx.process l).2.accounts = mapInsert acc1 tx.client_id newacct ∧
        newacct.total_funds = newacct.available_funds + newacct.held_funds ∧
        (tx.tx_type = .Chargeback → newacct.is_locked = true) ∧
        (tx.tx_type ≠ .Chargeback → newacct.is_locked = account.is_locked) := by
    intro ht
    rcases hga : tx.get_account l.accounts with ⟨acc1, er | account⟩
    · rw [process_ref_acct_error ht hga] at h
      exact absurd h (by simp)
    · rcases hgr : tx.get_referenced_tx l.transactions with er | rtx
      · rw [process_ref_tx_error ht hga hgr] at h
        exact absurd h (by simp)
      · rcases hra : rtx.amount with _ | amount
        · rw [process_ref_malformed ht hga hgr hra] at h
          exact absurd h (by simp)
        · rcases ht with ht | ht | ht
          · cases hd : rtx.disputed
            · rw [process_dispute_ok ht hga hgr hra hd]
              refine ⟨acc1, account, _, rfl, rfl, rfl, fun hc => ?_, fun _ => ?_⟩
              · rw [ht] at hc
                exact nomatch hc
              · split <;> rfl
            · rw [process_dispute_already_disputed ht hga hgr hra hd] at h
              exact absurd h (by simp)
          · cases hd : rtx.disputed
            · rw [process_rc_not_disputed (.inl ht) hga hgr hra hd] at h
              exact absurd h (by simp)
            · rw [process_resolve_ok ht hga hgr hra hd]
              refine ⟨acc1, account, _, rfl, rfl, rfl, fun hc => ?_, fun _ => rfl⟩
              rw [ht] at hc
              exact nomatch hc
          · cases hd : rtx.disputed
            · rw [process_rc_not_disputed (.inr ht) hga hgr hra hd] at h
              exact absurd h (by simp)
            · rw [process_chargeback_ok ht hga hgr hra hd]
              exact ⟨acc1, account, _, rfl, rfl, rfl, fun _ => rfl,
                fun hc => absurd ht hc⟩
  rcases tx_type_cases tx.tx_type with httype | httype | httype | httype | httype
  · rcases ham : tx.amount with _ | amount
    · rw [process_dw_malformed (.inl httype) ham] at h
      exact absurd h (by simp)
    · rcases hga : tx.get_account l.accounts with ⟨acc1, er | account⟩
      · rw [process_deposit_acct_error httype ham hga] at h
        exact absurd h (by simp)
      · rw [process_deposit_ok httype ham hga]
        refine ⟨acc1, account, _, rfl, rfl, rfl, fun hc => ?_, fun _ => rfl⟩
        rw [httype] at hc
        exact absurd hc (by decide)
  · rcases ham : tx.amount with _ | amount
    · rw [process_dw_malformed (.inr httype) ham] at h
      exact absurd h (by simp)
    · rcases hga : tx.get_account l.accounts with ⟨acc1, er | account⟩
      · rw [process_withdrawal_acct_error httype ham hga] at h
        exact absurd h (by simp)
      · by_cases hcmp : amount > account.available_funds
        · rw [process_withdrawal_insufficient httype ham hga hcmp] at h
          exact absurd h (by simp)
        · rw [process_withdrawal_ok httype ham hga hcmp]
          refine ⟨acc1, account, _, rfl, rfl, rfl, fun hc => ?_, fun _ => rfl⟩
          rw [httype] at hc
          exact absurd hc (by decide)
  · exact hrefs (.inl httype)
  · exact hrefs (.inr (.inl httype))
  · exact hrefs (.inr (.inr httype))

/-- The type-specific block `process` preserves the derived-total invariant. -/
theorem process_preserves_inv (hInv : AccountsInv l) :
    AccountsInv (tx.process l).2 := by
  cases hres : (tx.process l).1 with
  | some e =>
      obtain ⟨-, hac⟩ := process_error_frame hres
      intro c a ha
      rcases hac c with hc | ⟨-, -, hc⟩
      · exact hInv c a (hc ▸ ha)
      · rw [hc] at ha
        cases ha
        simp [Account.new]
  | none =>
      obtain ⟨acc1, account, newacct, hga, hac, htot, -, -⟩ :=
        process_success_shape hres
      intro c a ha
      rw [hac] at ha
      by_cases hc : c = tx.client_id
      · subst hc
        rw [mapInsert_self] at ha
        cases ha
        exact htot
      · rw [mapInsert_other _ _ _ _ hc] at ha
        rcases get_account_fst_frame hga c with hfr | ⟨hfr, -, -⟩
        · exact hInv c a (hfr ▸ ha)
        · exact absurd hfr hc

/-- The operation `append_to` preserves the derived-total invariant: the duplicate-ID
guard never touches accounts, and the rest is `process`. -/
theorem append_to_preserves_inv (hInv : AccountsInv l) :
    AccountsInv (tx.append_to l).2 := by
  have hdw : (tx.tx_type = .Deposit ∨ tx.tx_type = .Withdrawal) →
      AccountsInv (tx.append_to l).2 := by
    intro ht
    rcases hold : l.transactions tx.tx_id with _ | old
    · rw [append_to_fresh ht hold]
      exact process_preserves_inv (fun c a ha => hInv c a ha)
    · rw [append_to_dup ht hold]
      intro c a ha
      exact hInv c a ha
  rcases httype : tx.tx_type with _ | _ | _ | _ | _
  · exact hdw (.inl httype)
  · exact hdw (.inr httype)
  · rw [append_to_ref (.inl httype)]
    exact process_preserves_inv hInv
  · rw [append_to_ref (.inr (.inl httype))]
    exact process_preserves_inv hInv
  · rw [append_to_ref (.inr (.inr httype))]
    exact process_preserves_inv hInv

/-- A failing `append_to` call leaves every account as it was (up to lazy
creation of the client's fresh zero account) and every transactions-map
entry as it was, except that a Deposit/Withdrawal whose `tx_id` was fresh
leaves its own record inserted under that `tx_id`. -/
theorem append_to_error_frame (h : (tx.append_to l).1 = some e) :
    (∀ c, (tx.append_to l).2.accounts c = l.accounts c ∨
      (c = tx.client_id ∧ l.accounts c = none ∧
        (tx.append_to l).2.accounts c = some (Account.new c))) ∧
    (∀ t, (tx.append_to l).2.transactions t = l.transactions t ∨
      (t = tx.tx_id ∧ (tx.tx_type = .Deposit ∨ tx.tx_type = .Withdrawal) ∧
        l.transactions t = none ∧
        (tx.append_to l).2.transactions t = some tx)) := by
  have hdw : (tx.tx_type = .Deposit ∨ tx.tx_type = .Withdrawal) →
      (∀ c, (tx.append_to l).2.accounts c = l.accounts c ∨
        (c = tx.client_id ∧ l.accounts c = none ∧
          (tx.append_to l).2.accounts c = some (Account.new c))) ∧
      (∀ t, (tx.append_to l).2.transactions t = l.transactions t ∨
        (t = tx.tx_id ∧ (tx.tx_type = .Deposit ∨ tx.tx_type = .Withdrawal) ∧
          l.transactions t = none ∧
          (tx.append_to l).2.transactions t = some tx)) := by
    intro ht
    rcases hold : l.transactions tx.tx_id with _ | old
    · rw [append_to_fresh ht hold] at h ⊢
      obtain ⟨htr, hac⟩ := process_error_frame h
      refine ⟨fun c => hac c, fun t => ?_⟩
      rw [htr]
      by_cases hti : t = tx.tx_id
      · subst hti
        exact .inr ⟨rfl, ht, hold, mapInsert_self ..⟩
      · exact .inl (mapInsert_other _ _ _ _ hti)
    · rw [append_to_dup ht hold]
      refine ⟨fun c => .inl rfl, fun t => .inl ?_⟩
      by_cases hti : t = tx.tx_id
      · subst hti
        simp [mapInsert, hold]
      · simp [mapInsert, hti]
  have hrefs : (tx.tx_type = .Dispute ∨ tx.tx_type = .Resolve ∨
      tx.tx_type = .Chargeback) →
      (∀ c, (tx.append_to l).2.accounts c = l.accounts c ∨
        (c = tx.client_id ∧ l.accounts c = none ∧
          (tx.append_to l).2.accounts c = some (Account.new c))) ∧
      (∀ t, (tx.append_to l).2.transactions t = l.transactions t ∨
        (t = tx.tx_id ∧ (tx.tx_type = .Deposit ∨ tx.tx_type = .Withdrawal) ∧
          l.transactions t = none ∧
          (tx.append_to l).2.transactions t = some tx)) := by
    intro ht
    rw [append_to_ref ht] at h ⊢
    obtain ⟨htr, hac⟩ := process_error_frame h
    exact ⟨fun c => hac c, fun t => .inl (by rw [htr])⟩
  rcases tx_type_cases tx.tx_type with httype | httype | httype | httype | httype
  · exact hdw (.inl httype)
  · exact hdw (.inr httype)
  · exact hrefs (.inl httype)
  · exact hrefs (.inr (.inl httype))
  · exact hrefs (.inr (.inr httype))

/-- A successful `append_to` call writes exactly one account back, locked
exactly when the transaction is a Chargeback. -/
theorem append_to_success_shape (h : (tx.append_to l).1 = none) :
    ∃ acc1 account newacct,
      tx.get_account l.accounts = (acc1, .ok account) ∧
      (tx.append_to l).2.accounts = mapInsert acc1 tx.client_id newacct ∧
      (tx.tx_type = .Chargeback → newacct.is_locked = true) ∧
      (tx.tx_type ≠ .Chargeback → newacct.is_locked = account.is_locked) := by
  have hdw : (tx.tx_type = .Deposit ∨ tx.tx_type = .Withdrawal) →
      ∃ acc1 account newacct,
        tx.get_account l.accounts = (acc1, .ok account) ∧
        (tx.append_to l).2.accounts = mapInsert acc1 tx.client_id newacct ∧
        (tx.tx_type = .Chargeback → newacct.is_locked = true) ∧
        (tx.tx_type ≠ .Chargeback → newacct.is_locked = account.is_locked) := by
    intro ht
    rcases hold : l.transactions tx.tx_id with _ | old
    · rw [append_to_fresh ht hold] at h ⊢
      obtain ⟨acc1, account, newacct, hga, hac, -, hcb, hncb⟩ :=
        process_success_shape h
      exact ⟨acc1, account, newacct, hga, hac, hcb, hncb⟩
    · rw [append_to_dup ht hold] at h
      exact absurd h (by simp)
  have hrefs : (tx.tx_type = .Dispute ∨ tx.tx_type = .Resolve ∨
      tx.tx_type = .Chargeback) →
      ∃ acc1 account newacct,
        tx.get_account l.accounts = (acc1, .ok account) ∧
        (tx.append_to l).2.accounts = mapInsert acc1 tx.client_id newacct ∧
        (tx.tx_type = .Chargeback → newacct.is_locked = true) ∧
        (tx.tx_type ≠ .Chargeback → newacct.is_locked = account.is_locked) := by
    intro ht
    rw [append_to_ref ht] at h ⊢
    obtain ⟨acc1, account, newacct, hga, hac, -, hcb, hncb⟩ :=
      process_success_shape h
    exact ⟨acc1, account, newacct, hga, hac, hcb, hncb⟩
  rcases tx_type_cases tx.tx_type with httype | httype | httype | httype | httype
  · exact hdw (.inl httype)
  · exact hdw (.inr httype)
  · exact hrefs (.inl httype)
  · exact hrefs (.inr (.inl httype))
  · exact hrefs (.inr (.inr httype))

/-- Every reachable ledger state satisfies the derived-total invariant. -/
theorem reachable_inv {l : Ledger} (h : Reachable l) : AccountsInv l := by
  induction h with
  | empty => exact accountsInv_empty
  | step tx hr ih => exact append_to_preserves_inv ih

end Frames

end Lemmas

section Claims

open Transaction

/-- C1 counterexample: a Deposit whose amount is missing fails with
`Malformed`, yet its record is left stored under tx 1 — the ledger is not
"exactly as it was before the call", and a Deposit that fails with
`Malformed` does leave a record stored under its `tx_id`. -/
theorem C1_counterexample :
    (txDnone.append_to Ledger.empty).1 = some .Malformed ∧
      Ledger.empty.transactions 1 = none ∧
      (txDnone.append_to Ledger.empty).2.transactions 1 = some txDnone := by
  refine ⟨?_, rfl, ?_⟩ <;> decide

/-- C1 (amended): if `append_to` returns an error, every account is
unchanged except the documented lazy creation of a fresh zero-balance
unlocked account for the record's `client_id`, and every transactions-map
entry is unchanged except that a Deposit or Withdrawal that failed after
passing the duplicate-ID guard (with `Malformed`, `InsufficientFunds`, or
`AccountLocked`) leaves its own record inserted under its previously fresh
`tx_id`. -/
theorem C1_error_leaves_frame (tx : Transaction) (l : Ledger)
    (e : TransactionError) (h : (tx.append_to l).1 = some e) :
    (∀ c, (tx.append_to l).2.accounts c = l.accounts c ∨
      (c = tx.client_id ∧ l.accounts c = none ∧
        (tx.append_to l).2.accounts c = some (Account.new c))) ∧
    (∀ t, (tx.append_to l).2.transactions t = l.transactions t ∨
      (t = tx.tx_id ∧ (tx.tx_type = .Deposit ∨ tx.tx_type = .Withdrawal) ∧
        l.transactions t = none ∧
        (tx.append_to l).2.transactions t = some tx)) :=
  append_to_error_frame h

/-- Witness for the amended C1 at the malformed deposit on the empty
ledger. -/
theorem C1_error_leaves_frame_witness :
    (txDnone.append_to Ledger.empty).1 = some .Malformed ∧
    ((∀ c, (txDnone.append_to Ledger.empty).2.accounts c =
        Ledger.empty.accounts c ∨
      (c = txDnone.client_id ∧ Ledger.empty.accounts c = none ∧
        (txDnone.append_to Ledger.empty).2.accounts c =
          some (Account.new c))) ∧
    (∀ t, (txDnone.append_to Ledger.empty).2.transactions t =
        Ledger.empty.transactions t ∨
      (t = txDnone.tx_id ∧
        (txDnone.tx_type = .Deposit ∨ txDnone.tx_type = .Withdrawal) ∧
        Ledger.empty.transactions t = none ∧
        (txDnone.append_to Ledger.empty).2.transactions t = some txDnone))) :=
  ⟨by decide, C1_error_leaves_frame txDnone Ledger.empty .Malformed (by decide)⟩

/-- C2 counterexample: `exL3` is reachable, its account 1 is locked, and a
Deposit for client 1 reusing the stored tx 1 fails with
`DuplicateTransactionID`, not `AccountLocked` — the duplicate-ID guard runs
before the lock check. -/
theorem C2_counterexample :
    Reachable exL3 ∧
      (exL3.accounts 1).map Account.is_locked = some true ∧
      ((mkTx .Deposit 1 1 (some 5) false).append_to exL3).1 =
        some .DuplicateTransactionID ∧
      ((mkTx .Deposit 1 1 (some 5) false).append_to exL3).1 ≠
        some .AccountLocked := by
  refine ⟨Reachable.step txCb11 (Reachable.step txDsp11
    (Reachable.step txD11 Reachable.empty)), ?_, ?_, ?_⟩ <;>
    norm_num [exL3, exL2, exL1, txD11, txDsp11, txCb11, mkTx, Ledger.empty,
      Transaction.append_to, Transaction.process, get_amount, get_account,
      get_referenced_tx, is_disputed, is_not_disputed, Account.new, mapInsert] <;>
    decide

/-- C2 (amended): once the stored account of the record's client is locked,
`append_to` always fails; the error is `DuplicateTransactionID` for a
Deposit/Withdrawal whose `tx_id` is already stored (the duplicate guard
runs first), `Malformed` for a fresh-id Deposit/Withdrawal with a missing
amount (the amount check runs before the lock check), and `AccountLocked`
in every other case. -/
theorem C2_locked_account_always_fails (tx : Transaction) (l : Ledger)
    (a : Account) (ha : l.accounts tx.client_id = some a)
    (hl : a.is_locked = true) :
    (tx.append_to l).1 =
      some (if tx.tx_type = .Deposit ∨ tx.tx_type = .Withdrawal then
              if l.transactions tx.tx_id ≠ none then .DuplicateTransactionID
              else if tx.amount = none then .Malformed
              else .AccountLocked
            else .AccountLocked) := by
  have hga := ga_some_locked ha hl
  rcases tx_type_cases tx.tx_type with ht | ht | ht | ht | ht
  case _ | _ =>
    first
    | have hdw : tx.tx_type = .Deposit ∨ tx.tx_type = .Withdrawal := .inl ht
    | have hdw : tx.tx_type = .Deposit ∨ tx.tx_type = .Withdrawal := .inr ht
    rcases hold : l.transactions tx.tx_id with _ | old
    · rcases ham : tx.amount with _ | amt
      · rw [append_to_fresh hdw hold, process_dw_malformed hdw ham]
        simp [ht, hold, ham]
      · rw [append_to_fresh hdw hold]
        have hga2 : tx.get_account
            ({ l with transactions := mapInsert l.transactions tx.tx_id tx } :
              Ledger).accounts = (l.accounts, .error .AccountLocked) := hga
        rcases hdw with ht1 | ht1
        · rw [process_deposit_acct_error ht1 ham hga2]
          simp [ht1, hold, ham]
        · rw [process_withdrawal_acct_error ht1 ham hga2]
          simp [ht1, hold, ham]
    · rw [append_to_dup hdw hold]
      simp [ht, hold]
  case _ | _ | _ =>
    first
    | have h3 : tx.tx_type = .Dispute ∨ tx.tx_type = .Resolve ∨
        tx.tx_type = .Chargeback := .inl ht
    | have h3 : tx.tx_type = .Dispute ∨ tx.tx_type = .Resolve ∨
        tx.tx_type = .Chargeback := .inr (.inl ht)
    | have h3 : tx.tx_type = .Dispute ∨ tx.tx_type = .Resolve ∨
        tx.tx_type = .Chargeback := .inr (.inr ht)
    rw [append_to_ref h3, process_ref_acct_error h3 hga]
    simp [ht]

/-- Witness for the amended C2: a dispute by client 1 at the locked state
`exL3` fails with `AccountLocked`. -/
theorem C2_locked_account_always_fails_witness :
    exL3.accounts 1 =
      some { client_id := 1, available_funds := 0, held_funds := 0,
             total_funds := 0, is_locked := true } ∧
    (txDsp11.append_to exL3).1 =
      some (if txDsp11.tx_type = .Deposit ∨ txDsp11.tx_type = .Withdrawal then
              if exL3.transactions txDsp11.tx_id ≠ none then
                .DuplicateTransactionID
              else if txDsp11.amount = none then .Malformed
              else .AccountLocked
            else .AccountLocked) := by
  have ha : exL3.accounts 1 =
      some { client_id := 1, available_funds := 0, held_funds := 0,
             total_funds := 0, is_locked := true } := by
    norm_num [exL3, exL2, exL1, txD11, txDsp11, txCb11, mkTx, Ledger.empty,
      Transaction.append_to, Transaction.process, get_amount, get_account,
      get_referenced_tx, is_disputed, is_not_disputed, Account.new, mapInsert]
  exact ⟨ha, C2_locked_account_always_fails txDsp11 exL3 _ ha rfl⟩

/-- C3 counterexample: at the reachable state `exM4`, client 2's account is
locked and tx 1 is stored for client 1; client 2's dispute of tx 1 is an
ownership mismatch, yet it fails with `AccountLocked`, not `Unauthorized` —
the lock check runs before the referenced-transaction lookup. -/
theorem C3_counterexample :
    Reachable exM4 ∧
      exM4.transactions 1 = some txD11 ∧
      txD11.client_id = 1 ∧
      (exM4.accounts 2).map Account.is_locked = some true ∧
      ((mkTx .Dispute 2 1 none false).append_to exM4).1 =
        some .AccountLocked ∧
      ((mkTx .Dispute 2 1 none false).append_to exM4).1 ≠
        some .Unauthorized := by
  refine ⟨Reachable.step (mkTx .Chargeback 2 2 none false)
    (Reachable.step (mkTx .Dispute 2 2 none false)
      (Reachable.step txD22 (Reachable.step txD11 Reachable.empty))),
    ?_, rfl, ?_, ?_, ?_⟩ <;>
    norm_num [exM4, exM3, exM2, exL1, txD11, txD22, mkTx, Ledger.empty,
      Transaction.append_to, Transaction.process, get_amount, get_account,
      get_referenced_tx, is_disputed, is_not_disputed, Account.new,
      mapInsert] <;>
    decide

/-- C3 (amended): a Dispute, Resolve, or Chargeback whose `client_id`
differs from the stored `client_id` of the referenced transaction fails
with `Unauthorized`, provided the submitting client's account is absent
(it is lazily created unlocked) or present and unlocked; when the
submitting client's account is locked, the lock check fires first and the
call fails with `AccountLocked` instead. -/
theorem C3_ownership_mismatch_unauthorized (tx rtx : Transaction)
    (l : Ledger)
    (ht : tx.tx_type = .Dispute ∨ tx.tx_type = .Resolve ∨
      tx.tx_type = .Chargeback)
    (href : l.transactions tx.tx_id = some rtx)
    (hmm : rtx.client_id ≠ tx.client_id)
    (hnl : l.accounts tx.client_id = none ∨
      ∃ a, l.accounts tx.client_id = some a ∧ a.is_locked = false) :
    (tx.append_to l).1 = some .Unauthorized := by
  rw [append_to_ref ht]
  have hgr : tx.get_referenced_tx l.transactions = .error .Unauthorized :=
    grt_unauthorized href (fun hcl => hmm hcl.symm)
  rcases hnl with hnone | ⟨a, ha, hl⟩
  · rw [process_ref_tx_error ht (ga_none hnone) hgr]
  · rw [process_ref_tx_error ht (ga_some_unlocked ha hl) hgr]

/-- Witness for the amended C3: client 2, with no pre-existing account,
disputes client 1's stored tx 1 and gets `Unauthorized`. -/
theorem C3_ownership_mismatch_unauthorized_witness :
    exL1.transactions 1 = some txD11 ∧
      txD11.client_id ≠ 2 ∧
      exL1.accounts 2 = none ∧
      ((mkTx .Dispute 2 1 none false).append_to exL1).1 =
        some .Unauthorized := by
  have href : exL1.transactions 1 = some txD11 := by decide
  have hacct : exL1.accounts 2 = none := by
    norm_num [exL1, txD11, mkTx, Ledger.empty, Transaction.append_to,
      Transaction.process, get_amount, get_account, Account.new, mapInsert]
  exact ⟨href, by decide, hacct,
    C3_ownership_mismatch_unauthorized (mkTx .Dispute 2 1 none false) txD11
      exL1 (.inl rfl) href (by decide) (.inl hacct)⟩

/-- C8 counterexample: at the reachable state `exK5`, tx 1 is stored for
client 1, is a Deposit, and is currently disputed, yet client 1's second
dispute of it fails with `AccountLocked` (the account was locked by the
chargeback of tx 6), not `AlreadyDisputed`. -/
theorem C8_counterexample :
    Reachable exK5 ∧
      exK5.transactions 1 = some (mkTx .Deposit 1 1 (some 100) true) ∧
      (txDsp11.append_to exK5).1 = some .AccountLocked ∧
      (txDsp11.append_to exK5).1 ≠ some .AlreadyDisputed := by
  refine ⟨Reachable.step (mkTx .Chargeback 1 6 none false)
    (Reachable.step (mkTx .Dispute 1 6 none false)
      (Reachable.step txDsp11
        (Reachable.step txD16 (Reachable.step txD11 Reachable.empty)))),
    ?_, ?_, ?_⟩ <;>
    norm_num [exK5, exK4, exK3, exK2, exL1, txD11, txD16, txDsp11, mkTx,
      Ledger.empty, Transaction.append_to, Transaction.process, get_amount,
      get_account, get_referenced_tx, is_disputed, is_not_disputed,
      Account.new, mapInsert] <;>
    decide

/-- C8 (amended): for a Dispute whose referenced transaction exists, is
owned by the same client, is a Deposit or Withdrawal, carries an amount,
and whose submitting account is absent or unlocked: if the referenced
transaction is already disputed the call fails with `AlreadyDisputed`; for
a Resolve or Chargeback under the same conditions, if the referenced
transaction is not disputed the call fails with `NotDisputed`. -/
theorem C8_dispute_status_guards (tx rtx : Transaction) (l : Ledger)
    (amt : Rat)
    (href : l.transactions tx.tx_id = some rtx)
    (hown : rtx.client_id = tx.client_id)
    (hty : rtx.tx_type = .Deposit ∨ rtx.tx_type = .Withdrawal)
    (hamt : rtx.amount = some amt)
    (hnl : l.accounts tx.client_id = none ∨
      ∃ a, l.accounts tx.client_id = some a ∧ a.is_locked = false) :
    (tx.tx_type = .Dispute → rtx.disputed = true →
      (tx.append_to l).1 = some .AlreadyDisputed) ∧
    ((tx.tx_type = .Resolve ∨ tx.tx_type = .Chargeback) →
      rtx.disputed = false → (tx.append_to l).1 = some .NotDisputed) := by
  have hgr : tx.get_referenced_tx l.transactions = .ok rtx :=
    grt_found href hown.symm hty
  have hga : ∃ acc1 account, tx.get_account l.accounts =
      (acc1, .ok account) := by
    rcases hnl with hnone | ⟨a, ha, hl⟩
    · exact ⟨_, _, ga_none hnone⟩
    · exact ⟨_, _, ga_some_unlocked ha hl⟩
  obtain ⟨acc1, account, hga⟩ := hga
  constructor
  · intro ht hd
    rw [append_to_ref (.inl ht),
      process_dispute_already_disputed ht hga hgr hamt hd]
  · intro ht hd
    rw [append_to_ref (.inr ht),
      process_rc_not_disputed ht hga hgr hamt hd]

/-- Witness for the amended C8: at `exK3` (account 1 unlocked, tx 1
disputed) a second dispute of tx 1 fails with `AlreadyDisputed`. -/
theorem C8_dispute_status_guards_witness :
    exK3.transactions 1 = some (mkTx .Deposit 1 1 (some 100) true) ∧
      (exK3.accounts 1).map Account.is_locked = some false ∧
      ((txDsp11.tx_type = .Dispute →
          (mkTx .Deposit 1 1 (some 100) true).disputed = true →
          (txDsp11.append_to exK3).1 = some .AlreadyDisputed) ∧
       ((txDsp11.tx_type = .Resolve ∨ txDsp11.tx_type = .Chargeback) →
          (mkTx .Deposit 1 1 (some 100) true).disputed = false →
          (txDsp11.append_to exK3).1 = some .NotDisputed)) := by
  have evalset : exK3.transactions 1 = some (mkTx .Deposit 1 1 (some 100) true) ∧
      exK3.accounts 1 =
        some { client_id := 1, available_funds := 50, held_funds := 100,
               total_funds := 150, is_locked := false } := by
    constructor <;>
      norm_num [exK3, exK2, exL1, txD11, txD16, txDsp11, mkTx, Ledger.empty,
        Transaction.append_to, Transaction.process, get_amount, get_account,
        get_referenced_tx, is_disputed, is_not_disputed, Account.new,
        mapInsert]
  obtain ⟨href, ha⟩ := evalset
  refine ⟨href, by rw [ha]; rfl, ?_⟩
  exact C8_dispute_status_guards txDsp11 (mkTx .Deposit 1 1 (some 100) true)
    exK3 100 href (by decide) (.inl rfl) (by decide) (.inr ⟨_, ha, rfl⟩)

/-- C4: in every ledger state reachable from the empty ledger by any
sequence of `append_to` calls (successful or failed), every account
satisfies `total_funds = available_funds + held_funds`. -/
theorem C4_total_is_available_plus_held (l : Ledger) (hreach : Reachable l)
    (c : Nat) (a : Account) (ha : l.accounts c = some a) :
    a.total_funds = a.available_funds + a.held_funds :=
  reachable_inv hreach c a ha

/-- Witness for C4 at the concrete reachable state `exL1`. -/
theorem C4_total_is_available_plus_held_witness :
    Reachable exL1 ∧
      exL1.accounts 1 =
        some { client_id := 1, available_funds := 100, held_funds := 0,
               total_funds := 100, is_locked := false } ∧
      (100 : Rat) = 100 + 0 := by
  have ha : exL1.accounts 1 =
      some { client_id := 1, available_funds := 100, held_funds := 0,
             total_funds := 100, is_locked := false } := by
    norm_num [exL1, txD11, mkTx, Ledger.empty, Transaction.append_to,
      Transaction.process, get_amount, get_account, Account.new, mapInsert]
  exact ⟨Reachable.step txD11 Reachable.empty, ha,
    C4_total_is_available_plus_held exL1 (Reachable.step txD11 Reachable.empty)
      1 { client_id := 1, available_funds := 100, held_funds := 0,
          total_funds := 100, is_locked := false } ha⟩

/-- C5: `append_to` is a total function on transaction records and ledger
states — it is defined for every input and its result is either success or
one of the nine listed `TransactionError` variants; no input panics or
aborts (the embedding is a total Lean function with no partiality). -/
theorem C5_append_to_total_function (tx : Transaction) (l : Ledger) :
    (tx.append_to l).1 = none ∨
      ∃ e, (tx.append_to l).1 = some e ∧
        (e = .Malformed ∨ e = .DuplicateTransactionID ∨
         e = .InsufficientFunds ∨ e = .TransactionNotFound ∨
         e = .NotDisputed ∨ e = .AlreadyDisputed ∨ e = .Indisputable ∨
         e = .AccountLocked ∨ e = .Unauthorized) := by
  cases hres : (tx.append_to l).1 with
  | none => exact .inl rfl
  | some e => exact .inr ⟨e, rfl, by cases e <;> simp⟩

/-- C6: a Dispute that succeeds marks the referenced stored transaction
disputed, increases the client's `held_funds` by the referenced amount,
decreases `available_funds` by that amount exactly when the referenced
transaction is a Deposit (leaving it unchanged for a Withdrawal),
recomputes `total_funds = available_funds + held_funds`, and therefore
raises `total_funds` by the amount when the referenced transaction is a
Withdrawal.  The pre-state account is the stored one, or the fresh zero
account if none was stored. -/
theorem C6_successful_dispute_effects (tx rtx : Transaction) (l : Ledger)
    (ht : tx.tx_type = .Dispute)
    (href : l.transactions tx.tx_id = some rtx)
    (hsucc : (tx.append_to l).1 = none) :
    ∃ amt, rtx.amount = some amt ∧
      (tx.append_to l).2.transactions tx.tx_id =
        some { rtx with disputed := true } ∧
      ∃ a1, (tx.append_to l).2.accounts tx.client_id = some a1 ∧
        a1.held_funds =
          ((l.accounts tx.client_id).getD
            (Account.new tx.client_id)).held_funds + amt ∧
        a1.available_funds =
          (if rtx.tx_type = .Deposit then
            ((l.accounts tx.client_id).getD
              (Account.new tx.client_id)).available_funds - amt
           else
            ((l.accounts tx.client_id).getD
              (Account.new tx.client_id)).available_funds) ∧
        a1.total_funds = a1.available_funds + a1.held_funds ∧
        (rtx.tx_type = .Withdrawal →
          ((l.accounts tx.client_id).getD
              (Account.new tx.client_id)).total_funds =
            ((l.accounts tx.client_id).getD
              (Account.new tx.client_id)).available_funds +
            ((l.accounts tx.client_id).getD
              (Account.new tx.client_id)).held_funds →
          a1.total_funds =
            ((l.accounts tx.client_id).getD
              (Account.new tx.client_id)).total_funds + amt) := by
  rw [append_to_ref (.inl ht)] at hsucc ⊢
  rcases hga : tx.get_account l.accounts with ⟨acc1, er | account⟩
  · rw [process_ref_acct_error (.inl ht) hga] at hsucc
    exact absurd hsucc (by simp)
  · have hA : account =
        (l.accounts tx.client_id).getD (Account.new tx.client_id) := by
      obtain ⟨-, -, hcase⟩ := get_account_ok hga
      rcases hcase with ⟨hstored, -⟩ | ⟨habsent, hfresh, -⟩
      · rw [hstored]
        rfl
      · rw [habsent, hfresh]
        rfl
    rcases hgr : tx.get_referenced_tx l.transactions with er | rtx2
    · rw [process_ref_tx_error (.inl ht) hga hgr] at hsucc
      exact absurd hsucc (by simp)
    · have hrtx2 : rtx2 = rtx := by
        obtain ⟨hlook, -, -⟩ := get_referenced_tx_ok hgr
        rw [href] at hlook
        exact (Option.some.injEq .. ▸ hlook).symm
      subst hrtx2
      rcases hra : rtx2.amount with _ | amt
      · rw [process_ref_malformed (.inl ht) hga hgr hra] at hsucc
        exact absurd hsucc (by simp)
      · cases hd : rtx2.disputed
        · rw [process_dispute_ok ht hga hgr hra hd]
          refine ⟨amt, rfl, ?_, _, mapInsert_self .., ?_, ?_, rfl, ?_⟩
          · simp [mapInsert, hra]
          · rw [← hA]
            show (if rtx2.tx_type = .Deposit then
                  { account with
                      available_funds := account.available_funds - amt }
                else account).held_funds + amt = account.held_funds + amt
            split <;> rfl
          · rw [← hA]
            show (if rtx2.tx_type = .Deposit then
                  { account with
                      available_funds := account.available_funds - amt }
                else account).available_funds =
              if rtx2.tx_type = .Deposit then account.available_funds - amt
              else account.available_funds
            split <;> rfl
          · intro hw hInv
            rw [← hA] at hInv ⊢
            have hnotdep : ¬ rtx2.tx_type = .Deposit := by
              rw [hw]
              decide
            show (if rtx2.tx_type = .Deposit then
                  { account with
                      available_funds := account.available_funds - amt }
                else account).available_funds +
                ((if rtx2.tx_type = .Deposit then
                  { account with
                      available_funds := account.available_funds - amt }
                else account).held_funds + amt) =
              account.total_funds + amt
            rw [if_neg hnotdep, hInv]
            ring
        · rw [process_dispute_already_disputed ht hga hgr hra hd] at hsucc
          exact absurd hsucc (by simp)

/-- Witness for C6: at `exW2` (`deposit(1,1,100)`, `withdrawal(1,2,90)`),
the dispute of withdrawal tx 2 succeeds; held rises by 90 and available is
untouched. -/
theorem C6_successful_dispute_effects_witness :
    ((mkTx .Dispute 1 2 none false).append_to exW2).1 = none ∧
      exW2.transactions 2 = some txW12 ∧
      (∃ amt, txW12.amount = some amt ∧
        ((mkTx .Dispute 1 2 none false).append_to exW2).2.transactions 2 =
          some { txW12 with disputed := true } ∧
        ∃ a1, ((mkTx .Dispute 1 2 none false).append_to exW2).2.accounts 1 =
            some a1 ∧
          a1.held_funds =
            ((exW2.accounts 1).getD (Account.new 1)).held_funds + amt ∧
          a1.available_funds =
            (if txW12.tx_type = .Deposit then
              ((exW2.accounts 1).getD (Account.new 1)).available_funds - amt
             else ((exW2.accounts 1).getD (Account.new 1)).available_funds) ∧
          a1.total_funds = a1.available_funds + a1.held_funds ∧
          (txW12.tx_type = .Withdrawal →
            ((exW2.accounts 1).getD (Account.new 1)).total_funds =
              ((exW2.accounts 1).getD (Account.new 1)).available_funds +
              ((exW2.accounts 1).getD (Account.new 1)).held_funds →
            a1.total_funds =
              ((exW2.accounts 1).getD (Account.new 1)).total_funds + amt)) := by
  have hsucc : ((mkTx .Dispute 1 2 none false).append_to exW2).1 = none := by
    norm_num [exW2, exL1, txD11, txW12, mkTx, Ledger.empty,
      Transaction.append_to, Transaction.process, get_amount, get_account,
      get_referenced_tx, is_disputed, is_not_disputed, Account.new, mapInsert]
  have href : exW2.transactions 2 = some txW12 := by
    norm_num [exW2, exL1, txD11, txW12, mkTx, Ledger.empty,
      Transaction.append_to, Transaction.process, get_amount, get_account,
      get_referenced_tx, is_disputed, is_not_disputed, Account.new, mapInsert]
  exact ⟨hsucc, href,
    C6_successful_dispute_effects (mkTx .Dispute 1 2 none false) txW12 exW2
      rfl href hsucc⟩

/-- C7: a Deposit or Withdrawal whose `tx_id` is already stored fails with
`DuplicateTransactionID`, the stored record under that id is unchanged
(the old record is put back), and the accounts map is untouched. -/
theorem C7_duplicate_id_rejected (tx old : Transaction) (l : Ledger)
    (ht : tx.tx_type = .Deposit ∨ tx.tx_type = .Withdrawal)
    (hold : l.transactions tx.tx_id = some old) :
    (tx.append_to l).1 = some .DuplicateTransactionID ∧
      (∀ t, (tx.append_to l).2.transactions t = l.transactions t) ∧
      (tx.append_to l).2.accounts = l.accounts := by
  rw [append_to_dup ht hold]
  refine ⟨rfl, fun t => ?_, rfl⟩
  by_cases hti : t = tx.tx_id
  · subst hti
    simp [mapInsert, hold]
  · simp [mapInsert, hti]

/-- Witness for C7: a second transaction under tx 1 on `exL1`. -/
theorem C7_duplicate_id_rejected_witness :
    ((mkTx .Withdrawal 1 1 (some 90) false).append_to exL1).1 =
        some .DuplicateTransactionID ∧
      (∀ t, ((mkTx .Withdrawal 1 1 (some 90) false).append_to exL1).2.transactions t =
        exL1.transactions t) ∧
      ((mkTx .Withdrawal 1 1 (some 90) false).append_to exL1).2.accounts =
        exL1.accounts :=
  C7_duplicate_id_rejected (mkTx .Withdrawal 1 1 (some 90) false) txD11 exL1
    (.inr rfl) (by decide)

/-- C9: `is_locked` is one-way monotonic under `append_to`: no call changes
it from true to false, and a false-to-true change happens only on the
submitting client's account in a successful Chargeback. -/
theorem C9_lock_monotonic (tx : Transaction) (l : Ledger) (c : Nat)
    (a a1 : Account) (ha : l.accounts c = some a)
    (ha1 : (tx.append_to l).2.accounts c = some a1) :
    (a.is_locked = true → a1.is_locked = true) ∧
    (a.is_locked = false → a1.is_locked = true →
      tx.tx_type = .Chargeback ∧ (tx.append_to l).1 = none ∧
        c = tx.client_id) := by
  cases hres : (tx.append_to l).1 with
  | some e =>
      obtain ⟨hac, -⟩ := append_to_error_frame hres
      rcases hac c with hc | ⟨-, hnone, -⟩
      · rw [hc, ha] at ha1
        obtain rfl : a = a1 := by injection ha1
        exact ⟨fun h => h, fun hf ht => absurd ht (by simp [hf])⟩
      · rw [hnone] at ha
        cases ha
  | none =>
      obtain ⟨acc1, account, newacct, hga, hac, hcb, hncb⟩ :=
        append_to_success_shape hres
      rw [hac] at ha1
      by_cases hc : c = tx.client_id
      · subst hc
        rw [mapInsert_self] at ha1
        obtain rfl : newacct = a1 := by injection ha1
        obtain ⟨-, hunlocked, hcase⟩ := get_account_ok hga
        have haccount : account = a := by
          rcases hcase with ⟨hstored, -⟩ | ⟨habsent, -, -⟩
          · rw [ha] at hstored
            injection hstored with hx
            exact hx.symm
          · rw [habsent] at ha
            cases ha
        subst haccount
        constructor
        · intro hl
          exact absurd hl (by simp [hunlocked])
        · intro hf hl1
          by_cases hcb2 : tx.tx_type = .Chargeback
          · exact ⟨hcb2, rfl, rfl⟩
          · rw [hncb hcb2, hunlocked] at hl1
            cases hl1
      · rw [mapInsert_other _ _ _ _ hc] at ha1
        rcases get_account_fst_frame hga c with hfr | ⟨hfr, -, -⟩
        · rw [hfr, ha] at ha1
          obtain rfl : a = a1 := by injection ha1
          exact ⟨fun h => h, fun hf ht => absurd ht (by simp [hf])⟩
        · exact absurd hfr hc

/-- Witness for C9: the chargeback at `exL2` locks client 1's account. -/
theorem C9_lock_monotonic_witness :
    exL2.accounts 1 =
      some { client_id := 1, available_funds := 0, held_funds := 100,
             total_funds := 100, is_locked := false } ∧
    (txCb11.append_to exL2).2.accounts 1 =
      some { client_id := 1, available_funds := 0, held_funds := 0,
             total_funds := 0, is_locked := true } ∧
    ((({ client_id := 1, available_funds := 0, held_funds := 100,
          total_funds := 100, is_locked := false } : Account).is_locked = true →
        (({ client_id := 1, available_funds := 0, held_funds := 0,
            total_funds := 0, is_locked := true } : Account).is_locked = true)) ∧
      (({ client_id := 1, available_funds := 0, held_funds := 100,
          total_funds := 100, is_locked := false } : Account).is_locked = false →
        ({ client_id := 1, available_funds := 0, held_funds := 0,
           total_funds := 0, is_locked := true } : Account).is_locked = true →
        txCb11.tx_type = .Chargeback ∧ (txCb11.append_to exL2).1 = none ∧
          1 = txCb11.client_id)) := by
  have ha : exL2.accounts 1 =
      some { client_id := 1, available_funds := 0, held_funds := 100,
             total_funds := 100, is_locked := false } := by
    norm_num [exL2, exL1, txD11, txDsp11, mkTx, Ledger.empty,
      Transaction.append_to, Transaction.process, get_amount, get_account,
      get_referenced_tx, is_disputed, is_not_disputed, Account.new, mapInsert]
  have ha1 : (txCb11.append_to exL2).2.accounts 1 =
      some { client_id := 1, available_funds := 0, held_funds := 0,
             total_funds := 0, is_locked := true } := by
    norm_num [exL2, exL1, txD11, txDsp11, txCb11, mkTx, Ledger.empty,
      Transaction.append_to, Transaction.process, get_amount, get_account,
      get_referenced_tx, is_disputed, is_not_disputed, Account.new, mapInsert]
  exact ⟨ha, ha1, C9_lock_monotonic txCb11 exL2 1 _ _ ha ha1⟩

/-- C10: a Deposit or Withdrawal submitted with `disputed = true` is stored
verbatim, already marked disputed; consequently a subsequent Resolve of
that `tx_id` succeeds and adds the amount to `available_funds`, and a
subsequent Chargeback of it succeeds and locks the account, although no
Dispute was ever applied. -/
theorem C10_disputed_flag_stored_verbatim (tx : Transaction) (l : Ledger)
    (amt : Rat)
    (ht : tx.tx_type = .Deposit ∨ tx.tx_type = .Withdrawal)
    (hd : tx.disputed = true)
    (ha : tx.amount = some amt)
    (hfresh : l.transactions tx.tx_id = none)
    (hnl : l.accounts tx.client_id = none ∨
      ∃ a, l.accounts tx.client_id = some a ∧ a.is_locked = false)
    (hfunds : tx.tx_type = .Withdrawal →
      ¬ amt > ((l.accounts tx.client_id).getD
        (Account.new tx.client_id)).available_funds) :
    (tx.append_to l).1 = none ∧
    (tx.append_to l).2.transactions tx.tx_id = some tx ∧
    ((mkTx .Resolve tx.client_id tx.tx_id none false).append_to
        (tx.append_to l).2).1 = none ∧
    (∃ a1 a2, (tx.append_to l).2.accounts tx.client_id = some a1 ∧
      ((mkTx .Resolve tx.client_id tx.tx_id none false).append_to
          (tx.append_to l).2).2.accounts tx.client_id = some a2 ∧
      a2.available_funds = a1.available_funds + amt) ∧
    ((mkTx .Chargeback tx.client_id tx.tx_id none false).append_to
        (tx.append_to l).2).1 = none ∧
    (∃ a3, ((mkTx .Chargeback tx.client_id tx.tx_id none false).append_to
        (tx.append_to l).2).2.accounts tx.client_id = some a3 ∧
      a3.is_locked = true) := by
  have hga : ∃ acc1 A, tx.get_account l.accounts = (acc1, .ok A) ∧
      A = (l.accounts tx.client_id).getD (Account.new tx.client_id) := by
    rcases hnl with hnone | ⟨a, haa, hl⟩
    · exact ⟨_, _, ga_none hnone, by rw [hnone]; rfl⟩
    · exact ⟨_, _, ga_some_unlocked haa hl, by rw [haa]; rfl⟩
  obtain ⟨acc1, A, hga, hAeq⟩ := hga
  have hAlock : A.is_locked = false := (get_account_ok hga).2.1
  have key : ∃ a1, (tx.append_to l).1 = none ∧
      (tx.append_to l).2.transactions tx.tx_id = some tx ∧
      (tx.append_to l).2.accounts tx.client_id = some a1 ∧
      a1.is_locked = false := by
    have hga2 : tx.get_account
        ({ l with transactions := mapInsert l.transactions tx.tx_id tx } :
          Ledger).accounts = (acc1, .ok A) := hga
    rcases ht with ht1 | ht1
    · rw [append_to_fresh (.inl ht1) hfresh,
        process_deposit_ok ht1 ha hga2]
      exact ⟨_, rfl, mapInsert_self .., mapInsert_self .., hAlock⟩
    · rw [append_to_fresh (.inr ht1) hfresh]
      have hle : ¬ amt > A.available_funds := by
        rw [hAeq]
        exact hfunds ht1
      rw [process_withdrawal_ok ht1 ha hga2 hle]
      exact ⟨_, rfl, mapInsert_self .., mapInsert_self .., hAlock⟩
  obtain ⟨a1, hsucc, hstored, hacct1, hlock1⟩ := key
  refine ⟨hsucc, hstored, ?_, ?_, ?_, ?_⟩
  all_goals
    have hgares : (mkTx .Resolve tx.client_id tx.tx_id none false).get_account
        (tx.append_to l).2.accounts = ((tx.append_to l).2.accounts, .ok a1) :=
      ga_some_unlocked hacct1 hlock1
    have hgacb : (mkTx .Chargeback tx.client_id tx.tx_id none false).get_account
        (tx.append_to l).2.accounts = ((tx.append_to l).2.accounts, .ok a1) :=
      ga_some_unlocked hacct1 hlock1
    have hgrres : (mkTx .Resolve tx.client_id tx.tx_id none false).get_referenced_tx
        (tx.append_to l).2.transactions = .ok tx :=
      grt_found hstored rfl ht
    have hgrcb : (mkTx .Chargeback tx.client_id tx.tx_id none false).get_referenced_tx
        (tx.append_to l).2.transactions = .ok tx :=
      grt_found hstored rfl ht
  · rw [@append_to_ref (mkTx .Resolve tx.client_id tx.tx_id none false)
      (tx.append_to l).2 (.inr (.inl rfl)),
      process_resolve_ok rfl hgares hgrres ha hd]
  · rw [@append_to_ref (mkTx .Resolve tx.client_id tx.tx_id none false)
      (tx.append_to l).2 (.inr (.inl rfl)),
      process_resolve_ok rfl hgares hgrres ha hd]
    exact ⟨a1, _, hacct1, mapInsert_self .., rfl⟩
  · rw [@append_to_ref (mkTx .Chargeback tx.client_id tx.tx_id none false)
      (tx.append_to l).2 (.inr (.inr rfl)),
      process_chargeback_ok rfl hgacb hgrcb ha hd]
  · rw [@append_to_ref (mkTx .Chargeback tx.client_id tx.tx_id none false)
      (tx.append_to l).2 (.inr (.inr rfl)),
      process_chargeback_ok rfl hgacb hgrcb ha hd]
    exact ⟨_, mapInsert_self .., rfl⟩

/-- Witness for C10: a Deposit of 25 with `disputed = true` under tx 7 on
the empty ledger. -/
theorem C10_disputed_flag_stored_verbatim_witness :
    (let tx := mkTx .Deposit 1 7 (some 25) true
     (tx.append_to Ledger.empty).1 = none ∧
     (tx.append_to Ledger.empty).2.transactions 7 = some tx ∧
     ((mkTx .Resolve 1 7 none false).append_to
         (tx.append_to Ledger.empty).2).1 = none ∧
     (∃ a1 a2, (tx.append_to Ledger.empty).2.accounts 1 = some a1 ∧
       ((mkTx .Resolve 1 7 none false).append_to
           (tx.append_to Ledger.empty).2).2.accounts 1 = some a2 ∧
       a2.available_funds = a1.available_funds + 25) ∧
     ((mkTx .Chargeback 1 7 none false).append_to
         (tx.append_to Ledger.empty).2).1 = none ∧
     (∃ a3, ((mkTx .Chargeback 1 7 none false).append_to
         (tx.append_to Ledger.empty).2).2.accounts 1 = some a3 ∧
       a3.is_locked = true)) :=
  C10_disputed_flag_stored_verbatim (mkTx .Deposit 1 7 (some 25) true)
    Ledger.empty 25 (.inl rfl) rfl rfl rfl (.inl rfl)
    (fun hw => nomatch hw)

end Claims

end LedgerRs
